import Mathlib

/-!
# Verification of the roger airport ATC simulator core (src/main.rs)

Shallow embedding of the data model, movement engine, command parser /
transition validator, collision detector and topology-registry builders
of `src/main.rs`, together with theorems settling the frozen claims.

Modelling conventions:
* Rust `usize` becomes `Nat`.  `Direction::go` performs `position.0 - 1`
  on `usize`; in the embedding this is truncated `Nat` subtraction.  All
  positions used by theorems and witnesses lie in the grid interior (the
  real maps carry an `Empty` margin of at least 2 cells), where the two
  agree.
* Grid indexing `map.map[x][y]` becomes list indexing with default
  `MapPoint.Empty` for out-of-range indices; the real grid's `Empty`
  margin makes in-simulation indexing stay in range.
* Rust `panic!` / `expect` / `todo!` in the movement engine is modelled
  as `Option.none` (fallible code returns `Option`).
* `HashMap<String, _>` registries are modelled as association lists in
  the grid-scan insertion order; `contains_key`/`get` become
  `List.lookup`.
* The recursive straight-line walk `check_for_gate_taxi_line` is given
  explicit fuel (`Map.cellCount`).  The Rust recursion is bounded by the
  map edge (out-of-range indexing panics there); fuel exhaustion is
  modelled as `false`.
* The `Weather` struct's wind fields are `f64` cosmetics never read by
  the core logic; only the `condition` field is embedded.
-/

deriving instance DecidableEq for Except

namespace Roger

/-- `enum Direction`. -/
inductive Direction where
  | North
  | South
  | East
  | West
  | StayPut
deriving DecidableEq

/-- `Direction::go`: fixed unit offset applied to a `(row, col)` position. -/
def Direction.go (d : Direction) (position : Nat × Nat) : Nat × Nat :=
  match d with
  | .North => (position.1 - 1, position.2)
  | .South => (position.1 + 1, position.2)
  | .East => (position.1, position.2 + 1)
  | .West => (position.1, position.2 - 1)
  | .StayPut => (position.1, position.2)

/-- `Direction::get_opposite_dir`. -/
def Direction.get_opposite_dir (d : Direction) : Direction :=
  match d with
  | .North => .South
  | .South => .North
  | .East => .West
  | .West => .East
  | .StayPut => .StayPut

/-- `enum MapPoint`: one grid tile. -/
inductive MapPoint where
  | Runway : Nat × Direction → MapPoint
  | Taxiway : Nat × Direction → MapPoint
  | Gate : String → MapPoint
  | GateTaxiLine : String × Direction → MapPoint
  | Empty
deriving DecidableEq

/-- `struct Spacing`: the `Empty` margin added around the parsed grid. -/
structure Spacing where
  top_bottom : Nat
  left_right : Nat
deriving DecidableEq

/-- `struct Map`.  The Rust fields `_length`/`_width` are kept (renamed
without the underscore prefix); `map` is the bordered grid. -/
structure Map where
  length : Nat
  width : Nat
  spacing : Spacing
  map : List (List MapPoint)
deriving DecidableEq

/-- Grid indexing `map.map[x][y]`.  Out-of-range indices yield `Empty`
(Rust would panic; the grid's `Empty` margin keeps real accesses in
range). -/
def Map.cellAt (m : Map) (position : Nat × Nat) : MapPoint :=
  (m.map.getD position.1 []).getD position.2 .Empty

/-- Total number of grid cells, plus one; used as fuel for the
straight-line gate-taxi-line walk (whose Rust recursion is bounded by
the map edge). -/
def Map.cellCount (m : Map) : Nat :=
  m.map.foldl (fun acc row => acc + row.length) 0 + 1

/-- `Direction::fetch_mappoint`: the cell one step along `d`. -/
def Direction.fetch_mappoint (d : Direction) (m : Map) (position : Nat × Nat) : MapPoint :=
  m.cellAt (d.go position)

/-- `MapPoint::check_if_runway`. -/
def MapPoint.check_if_runway (p : MapPoint) : Bool :=
  match p with
  | .Runway _ => true
  | _ => false

/-- `MapPoint::check_if_taxiway`. -/
def MapPoint.check_if_taxiway (p : MapPoint) : Bool :=
  match p with
  | .Taxiway _ => true
  | _ => false

/-- `MapPoint::check_if_gate_taxi_line`. -/
def MapPoint.check_if_gate_taxi_line (p : MapPoint) : Bool :=
  match p with
  | .GateTaxiLine _ => true
  | _ => false

/-- `MapPoint::check_if_gate`: is this cell `Gate(gate)`? -/
def MapPoint.check_if_gate (p : MapPoint) (gate : String) : Bool :=
  match p with
  | .Gate number => number == gate
  | _ => false

/-- The fixed direction scan order `[North, South, East, West]` used by
the search helpers. -/
def scanDirections : List Direction :=
  [.North, .South, .East, .West]

/-- Search order of `MapPoint::check_for_taxiway`: first direction whose
neighbour is a `Taxiway`, else `(false, StayPut)`. -/
def check_for_taxiway_aux (m : Map) (position : Nat × Nat) :
    List Direction → Bool × Direction
  | [] => (false, .StayPut)
  | d :: rest =>
      if (d.fetch_mappoint m position).check_if_taxiway then (true, d)
      else check_for_taxiway_aux m position rest

/-- `MapPoint::check_for_taxiway` (the Rust receiver `self` is unused). -/
def check_for_taxiway (m : Map) (position : Nat × Nat) : Bool × Direction :=
  check_for_taxiway_aux m position scanDirections

/-- `MapPoint::check_for_gate_taxi_line`: walk straight along
`direction` over a chain of `GateTaxiLine` cells; `true` iff the first
non-`GateTaxiLine` cell reached is `Gate(gate)`.  `fuel` bounds the walk
(see module comment). -/
def check_for_gate_taxi_line (m : Map) (fuel : Nat) (position : Nat × Nat)
    (gate : String) (direction : Direction) : Bool :=
  match fuel with
  | 0 => false
  | fuel + 1 =>
      if (direction.fetch_mappoint m position).check_if_gate_taxi_line then
        check_for_gate_taxi_line m fuel (direction.go position) gate direction
      else
        (direction.fetch_mappoint m position).check_if_gate gate

/-- Direction loop of `check_for_gate_taxi_line_all_directions`. -/
def check_for_gate_taxi_line_all_directions_aux (m : Map) (fuel : Nat)
    (position : Nat × Nat) (gate : String) (do_not_go_deep : Bool) :
    List Direction → Bool × Direction
  | [] => (false, .StayPut)
  | d :: rest =>
      if do_not_go_deep && (d.fetch_mappoint m position).check_if_gate_taxi_line then
        (true, d)
      else if check_for_gate_taxi_line m fuel position gate d then (true, d)
      else check_for_gate_taxi_line_all_directions_aux m fuel position gate do_not_go_deep rest

/-- `MapPoint::check_for_gate_taxi_line_all_directions`. -/
def check_for_gate_taxi_line_all_directions (m : Map) (fuel : Nat)
    (position : Nat × Nat) (gate : String) (do_not_go_deep : Bool) : Bool × Direction :=
  check_for_gate_taxi_line_all_directions_aux m fuel position gate do_not_go_deep
    scanDirections

/-- `struct Runway` (a registry record). -/
structure Runway where
  name : Nat
  side : Direction
deriving DecidableEq

/-- `struct Gate` (a registry record). -/
structure Gate where
  number : String
  position : Nat × Nat
  is_occupied : Bool
deriving DecidableEq

/-- `enum WeatherCondition`. -/
inductive WeatherCondition where
  | Clear
  | Rain
  | InclementWeather
deriving DecidableEq

/-- `struct Weather`.  The `wind_direction`/`wind_speed` fields are
cosmetic (`f64`, never read by the core logic) and are not embedded. -/
structure Weather where
  condition : WeatherCondition
deriving DecidableEq

/-- `enum AtGateAction`: the fixed 16-step turnaround sequence (variant
declaration order = the `enum_iterator::Sequence` iteration order). -/
inductive AtGateAction where
  | ShutdownProcedure
  | DeboardPassengers
  | DeboardCargo
  | UnloadBaggage
  | UnloadCargo
  | Refuel
  | Repair
  | Clean
  | LoadCargo
  | CrewChange
  | MaintenanceCheck
  | LoadBaggage
  | LoadPassengers
  | BoardPassengers
  | LoadAdditionalCargo
  | Standby
deriving DecidableEq

/-- `all::<AtGateAction>()`: the 16 variants in declaration order. -/
def at_gate_sequence : List AtGateAction :=
  [.ShutdownProcedure, .DeboardPassengers, .DeboardCargo, .UnloadBaggage,
   .UnloadCargo, .Refuel, .Repair, .Clean, .LoadCargo, .CrewChange,
   .MaintenanceCheck, .LoadBaggage, .LoadPassengers, .BoardPassengers,
   .LoadAdditionalCargo, .Standby]

/-- `enum Action`: a plane's state. -/
inductive Action where
  | InAir
  | Land
  | Takeoff
  | HoldPosition
  | TaxiOntoRunway : Nat → Action
  | HoldShort
  | TaxiToGate : String → Action
  | Pushback
  | AtGate : String × AtGateAction → Action
deriving DecidableEq

/-- `struct Plane`. -/
structure Plane where
  id : Nat
  name : String
  current_action : Action
  position : Nat × Nat
  runway : Runway
  out_of_map : Bool
deriving DecidableEq

/-- `struct Score`. -/
structure Score where
  takeoff : Nat
  crash : Nat
deriving DecidableEq

/-- `struct Airport` (the `map`-file and rendering parts are external;
`weather` keeps only the condition, see `Weather`). -/
structure Airport where
  runways : List (String × Runway)
  gates : List (String × Gate)
  map : Map
  weather : Weather
  planes : List Plane
deriving DecidableEq

/-- The grid's `Runway` cell payloads in row-major scan order. -/
def runwayCells (m : Map) : List (Nat × Direction) :=
  m.map.flatMap (fun row =>
    row.filterMap (fun cell =>
      match cell with
      | .Runway nd => some nd
      | _ => none))

/-- Insertion loop of `Runway::new`: insert a record keyed by
`name.to_string()` unless the key is already present (duplicates are
silently skipped — there is no panic path, unlike `Gate::new`). -/
def runwayFold : List (Nat × Direction) → List (String × Runway) → List (String × Runway)
  | [], acc => acc
  | (name, side) :: rest, acc =>
      if (List.lookup (toString name) acc).isSome then runwayFold rest acc
      else runwayFold rest (acc ++ [(toString name, ⟨name, side⟩)])

/-- `Runway::new`: scan the grid once, one record per distinct runway
name (first occurrence wins). -/
def Runway.new (m : Map) : List (String × Runway) :=
  runwayFold (runwayCells m) []

/-- The grid's `Gate` cell labels with their `(row, col)` positions in
row-major scan order. -/
def gateCells (m : Map) : List (String × Nat × Nat) :=
  m.map.enum.flatMap (fun rowPair =>
    rowPair.2.enum.filterMap (fun cellPair =>
      match cellPair.2 with
      | .Gate number => some (number, rowPair.1, cellPair.1)
      | _ => none))

/-- Insertion loop of `Gate::new`: a repeated gate number panics
(`Duplicate gate number`), modelled as `Except.error`. -/
def gateFold : List (String × Nat × Nat) → List (String × Gate) →
    Except String (List (String × Gate))
  | [], acc => .ok acc
  | (number, pos) :: rest, acc =>
      if (List.lookup number acc).isSome then
        .error ("Duplicate gate number: " ++ number)
      else gateFold rest (acc ++ [(number, ⟨number, pos, false⟩)])

/-- `Gate::new`: scan the grid once; duplicate gate numbers are a fatal
load-time error. -/
def Gate.new (m : Map) : Except String (List (String × Gate)) :=
  gateFold (gateCells m) []

/-- Advance loop of the `Action::AtGate` arm of
`update_aircraft_position`: scan `all::<AtGateAction>()`; on finding the
current sub-state, replace it with the next element (consuming it) and
keep scanning, or with `Standby` when the iterator is exhausted. -/
def atgate_advance : List AtGateAction → AtGateAction → AtGateAction
  | [], cur => cur
  | x :: rest, cur =>
      if x = cur then
        match rest with
        | [] => .Standby
        | y :: rest2 => atgate_advance rest2 y
      else atgate_advance rest cur

/-- One turnaround step: the `AtGate` advance loop run over the full
variant sequence. -/
def next_atgate (sub : AtGateAction) : AtGateAction :=
  atgate_advance at_gate_sequence sub

/-- Mark the registry record of gate `gate` occupied
(`airport.gates.get_mut(gate)` followed by `is_occupied = true`). -/
def setOccupied (gates : List (String × Gate)) (gate : String) :
    List (String × Gate) :=
  gates.map (fun kv => if kv.1 = gate then (kv.1, { kv.2 with is_occupied := true }) else kv)

/-- The per-plane body of `update_aircraft_position`: advance one plane
one tick.  `none` models the Rust panics (`panic!` / `todo!` /
`expect`) reachable in this body.  Returns the updated plane and the
(possibly updated) gate registry. -/
def update_one_aircraft (m : Map) (gates : List (String × Gate)) (p : Plane) :
    Option (Plane × List (String × Gate)) :=
  match p.current_action with
  | .InAir =>
      match p.runway.side with
      | .StayPut => none
      | plane_dir =>
          let pos := plane_dir.go p.position
          if m.cellAt pos = .Runway (p.runway.name, plane_dir) then
            some ({ p with position := pos, current_action := .Land }, gates)
          else
            some ({ p with position := pos }, gates)
  | .Land =>
      match p.runway.side with
      | .StayPut => none
      | plane_dir =>
          let scan := check_for_taxiway m p.position
          let nearby_taxiway := scan.1
          let taxiway_dir := scan.2
          let pos0 := plane_dir.go p.position
          let step :=
            if nearby_taxiway then
              let potential_map_point := taxiway_dir.fetch_mappoint m p.position
              let potential_point := taxiway_dir.go p.position
              let outward_facing :=
                match potential_map_point with
                | .Taxiway (_, dir) => (dir.fetch_mappoint m potential_point).check_if_runway
                | _ => false
              if !outward_facing then (potential_point, Action.HoldPosition)
              else (pos0, p.current_action)
            else (pos0, p.current_action)
          let act :=
            if plane_dir.fetch_mappoint m step.1 = .Empty then Action.HoldPosition
            else step.2
          some ({ p with position := step.1, current_action := act }, gates)
  | .TaxiToGate gate =>
      let point := m.cellAt p.position
      if point.check_if_runway && (p.runway.side.fetch_mappoint m p.position == .Empty) then
        match point with
        | .Runway (_, dir) => some ({ p with position := dir.go p.position }, gates)
        | _ => none
      else
        let scan := check_for_gate_taxi_line_all_directions m m.cellCount p.position gate false
        if scan.1 then
          some ({ p with position := scan.2.go p.position }, gates)
        else
          match point with
          | .Taxiway (_, dir) => some ({ p with position := dir.go p.position }, gates)
          | .GateTaxiLine (_, dir) => some ({ p with position := dir.go p.position }, gates)
          | .Gate _ =>
              if (List.lookup gate gates).isSome then
                some ({ p with
                          current_action := .AtGate (gate, .ShutdownProcedure),
                          position := Direction.StayPut.go p.position },
                      setOccupied gates gate)
              else none
          | .Runway (_, dir) => some ({ p with position := dir.go p.position }, gates)
          | .Empty => none
  | .Takeoff =>
      if p.position.1 ≤ 1 || p.position.1 ≥ m.map.length - 1 ||
         p.position.2 ≤ 1 || p.position.2 ≥ (m.map.getD 0 []).length - 1 then
        some ({ p with out_of_map := true }, gates)
      else
        match m.cellAt p.position with
        | .Runway _ => some ({ p with position := p.runway.side.go p.position }, gates)
        | .Empty => some ({ p with position := p.runway.side.go p.position }, gates)
        | _ => none
  | .HoldPosition => some (p, gates)
  | .TaxiOntoRunway _ =>
      match m.cellAt p.position with
      | .Taxiway (_, dir) => some ({ p with position := dir.go p.position }, gates)
      | .Runway (name, dir) =>
          match name with
          | 0 => some ({ p with current_action := .TaxiOntoRunway name }, gates)
          | _ => some ({ p with position := dir.go p.position }, gates)
      | _ => none
  | .HoldShort =>
      match m.cellAt p.position with
      | .Taxiway (_, dir) =>
          if (dir.fetch_mappoint m p.position).check_if_runway then
            some ({ p with current_action := .HoldPosition }, gates)
          else
            some ({ p with position := dir.go p.position }, gates)
      | _ => none
  | .Pushback =>
      match m.cellAt p.position with
      | .GateTaxiLine (_, dir) =>
          let newpos := dir.get_opposite_dir.go p.position
          if (m.cellAt newpos).check_if_taxiway then
            some ({ p with position := newpos, current_action := .HoldPosition }, gates)
          else
            some ({ p with position := newpos }, gates)
      | .Gate gate =>
          let scan := check_for_gate_taxi_line_all_directions m m.cellCount p.position gate true
          if scan.1 then some ({ p with position := scan.2.go p.position }, gates)
          else none
      | _ => none
  | .AtGate (gate, atgate_action) =>
      some ({ p with current_action := .AtGate (gate, next_atgate atgate_action) }, gates)

/-- One movement tick for one fleet slot: `update_aircraft_position`
filters out `out_of_map` planes before applying the per-plane body. -/
def tick_plane (m : Map) (gates : List (String × Gate)) (p : Plane) :
    Option (Plane × List (String × Gate)) :=
  if p.out_of_map then some (p, gates) else update_one_aircraft m gates p

/-- `n` successive movement ticks applied to a single plane, threading
the gate registry. -/
def run_ticks (m : Map) : Nat → List (String × Gate) → Plane →
    Option (Plane × List (String × Gate))
  | 0, gates, p => some (p, gates)
  | n + 1, gates, p =>
      match tick_plane m gates p with
      | none => none
      | some (p', gates') => run_ticks m n gates' p'

/-- `update_aircraft_position`: advance every non-`out_of_map` plane of
the fleet by one tick, in list order, threading the gate registry. -/
def update_aircraft_position (m : Map) :
    List (String × Gate) → List Plane →
    Option (List Plane × List (String × Gate))
  | gates, [] => some ([], gates)
  | gates, p :: rest =>
      if p.out_of_map then
        match update_aircraft_position m gates rest with
        | none => none
        | some (ps, gs) => some (p :: ps, gs)
      else
        match update_one_aircraft m gates p with
        | none => none
        | some (p', gates') =>
            match update_aircraft_position m gates' rest with
            | none => none
            | some (ps, gs) => some (p' :: ps, gs)

/-- The collision condition of `detect_and_handle_collisions`: equal
positions, distinct ids, both planes still on the map. -/
def collideb (p q : Plane) : Bool :=
  p.position == q.position && p.id != q.id &&
    p.out_of_map == false && q.out_of_map == false

/-- Inner loop of the collision scan: first later-listed plane colliding
with `p` (the inner `break`). -/
def inner_scan (p : Plane) (rest : List Plane) : Option Plane :=
  rest.find? (fun q => collideb p q)

/-- Outer loop of the collision scan.  The Rust `break` leaves only the
inner loop, so a later outer hit overwrites `crashed_planes`. -/
def crashed_scan : List Plane → Option (Plane × Plane) → Option (Plane × Plane)
  | [], acc => acc
  | p :: rest, acc =>
      crashed_scan rest
        (match inner_scan p rest with
         | some q => some (p, q)
         | none => acc)

/-- The `crashed_planes` value computed by
`detect_and_handle_collisions` over a fleet. -/
def crashed_planes (fleet : List Plane) : Option (Plane × Plane) :=
  crashed_scan fleet none

/-- Right-biased reformulation of the scan: the hit of the latest outer
plane that has one (used to characterise `crashed_planes`). -/
def last_hit : List Plane → Option (Plane × Plane)
  | [] => none
  | p :: rest =>
      match last_hit rest with
      | some pr => some pr
      | none => (inner_scan p rest).map (fun q => (p, q))

/-- `detect_and_handle_collisions`: increment the crash counter once
when the scan found a pair. -/
def detect_and_handle_collisions (fleet : List Plane) (score : Score) : Score :=
  match crashed_planes fleet with
  | some _ => { score with crash := score.crash + 1 }
  | none => score

/-- The `valid_commands` array of `parse_user_input` (note the eighth
entry `t2r`, absent from the doc comment's grammar). -/
def valid_commands : List String :=
  ["hp", "p", "l", "t", "tor", "hs", "t2r", "t2g"]

/-- Keyword-to-action mapping of `parse_user_input`.  `tor` parses its
destination with `.parse::<usize>().unwrap()`; the registry lookup has
already succeeded and `Runway::new` keys are numeric strings, so the
unwrap cannot fail there — modelled as `(dest.toNat?).getD 0`.  The
catch-all arm (reached by `t2r`) yields `HoldPosition`. -/
def keyword_action (keyword dest : String) : Action :=
  match keyword with
  | "l" => .Land
  | "t" => .Takeoff
  | "hp" => .HoldPosition
  | "p" => .Pushback
  | "tor" => .TaxiOntoRunway ((dest.toNat?).getD 0)
  | "hs" => .HoldShort
  | "t2g" => .TaxiToGate dest
  | _ => .HoldPosition

/-- Rust `str::to_lowercase`, written over the character list so that
it evaluates inside the kernel (`String.toLower` is opaque there). -/
def to_lowercase (s : String) : String :=
  String.mk (s.data.map Char.toLower)

/-- Everything `parse_user_input` does before the legal-transition
check: length check, plane lookup, keyword check, arity check,
destination resolution (updating the clone's runway).  Returns the
(possibly runway-updated) clone and the requested action. -/
def resolve_command (command : List String) (planes : List Plane)
    (runways : List (String × Runway)) : Except String (Plane × Action) :=
  if command.length > 3 || command.length < 2 then
    .error "Wrong user input length."
  else
    let keyword := command.getD 0 ""
    let aircraft := to_lowercase (command.getD 1 "")
    match planes.find? (fun plane => to_lowercase plane.name == aircraft) with
    | none => .error "Plane not found"
    | some plane =>
        if !(valid_commands.contains keyword) then
          .error ("Invalid command: " ++ keyword)
        else if keyword != "hp" && keyword != "p" && command.length != 3 then
          .error "Must contain a runway/gate/terminal number"
        else if keyword != "hp" && keyword != "p" then
          let dest := command.getD 2 ""
          if keyword != "t2g" then
            match List.lookup dest runways with
            | none => .error "Runway not found"
            | some runway =>
                .ok ({ plane with runway := runway }, keyword_action keyword dest)
          else .ok (plane, keyword_action keyword dest)
        else .ok (plane, keyword_action keyword "")

/-- The legal-transition allow-list of `parse_user_input`: `some msg`
when the requested transition is rejected (including the weather and
turnaround gates), `none` when it is granted. -/
def check_transition (cur req : Action) (weather : Weather) : Option String :=
  match cur with
  | .InAir => some "Not a valid action when plane is in the air"
  | .Land => some "Not a valid action when in the process of landing"
  | .Takeoff => some "Not a valid action when in the process of takeoff"
  | .HoldPosition =>
      match req with
      | .TaxiToGate _ => none
      | .HoldShort => none
      | .TaxiOntoRunway _ => none
      | _ => some "Not a valid action when holding position"
  | .TaxiOntoRunway _ =>
      match req with
      | .HoldPosition => none
      | .HoldShort => none
      | .TaxiToGate _ => none
      | .Takeoff =>
          if weather.condition = .InclementWeather then
            some "Cannot takeoff during inclement weather, return back to the gate"
          else none
      | _ => some "Not a valid action when taxiing onto runway"
  | .HoldShort =>
      match req with
      | .HoldPosition => none
      | .TaxiOntoRunway _ => none
      | .Takeoff =>
          if weather.condition = .InclementWeather then
            some "Cannot takeoff during inclement weather, return back to the gate"
          else none
      | _ => some "Not a valid action when holding short"
  | .TaxiToGate _ =>
      match req with
      | .HoldPosition => none
      | _ => some "Not a valid action when taxiing to gate"
  | .Pushback => some "Not a valid action when in the process of pushback"
  | .AtGate (_, at_gate_action) =>
      match req with
      | .Pushback =>
          if at_gate_action ≠ .Standby then
            some "Wait for the plane to finish its turnaround process"
          else if weather.condition = .InclementWeather then
            some "Cannot pushback during inclement weather"
          else none
      | _ => some "Not a valid action when at gate"

/-- `parse_user_input` on the whitespace-token list of the command
line: resolve the command, then run the legal-transition check; on
acceptance return the clone with `current_action` replaced. -/
def parse_user_input (command : List String) (planes : List Plane)
    (runways : List (String × Runway)) (weather : Weather) : Except String Plane :=
  match resolve_command command planes runways with
  | .error e => .error e
  | .ok (plane, action) =>
      match check_transition plane.current_action action weather with
      | some e => .error e
      | none => .ok { plane with current_action := action }

/-- The strict allow-list of current-action/requested-action pairs (the
table of §4.2), weather gating excluded: `AtGate` only allows `Pushback`
from the `Standby` sub-state. -/
def allow_list : Action → Action → Bool
  | .HoldPosition, .TaxiToGate _ => true
  | .HoldPosition, .HoldShort => true
  | .HoldPosition, .TaxiOntoRunway _ => true
  | .TaxiOntoRunway _, .HoldPosition => true
  | .TaxiOntoRunway _, .HoldShort => true
  | .TaxiOntoRunway _, .TaxiToGate _ => true
  | .TaxiOntoRunway _, .Takeoff => true
  | .HoldShort, .HoldPosition => true
  | .HoldShort, .TaxiOntoRunway _ => true
  | .HoldShort, .Takeoff => true
  | .TaxiToGate _, .HoldPosition => true
  | .AtGate (_, sub), .Pushback => sub == .Standby
  | _, _ => false

/-- The state-specific rejection message issued for a transition outside
the allow-list (keyed on the current state; the `AtGate`/`Pushback` pair
additionally reports the unfinished turnaround). -/
def reject_msg : Action → Action → String
  | .InAir, _ => "Not a valid action when plane is in the air"
  | .Land, _ => "Not a valid action when in the process of landing"
  | .Takeoff, _ => "Not a valid action when in the process of takeoff"
  | .HoldPosition, _ => "Not a valid action when holding position"
  | .TaxiOntoRunway _, _ => "Not a valid action when taxiing onto runway"
  | .HoldShort, _ => "Not a valid action when holding short"
  | .TaxiToGate _, _ => "Not a valid action when taxiing to gate"
  | .Pushback, _ => "Not a valid action when in the process of pushback"
  | .AtGate _, .Pushback => "Wait for the plane to finish its turnaround process"
  | .AtGate _, _ => "Not a valid action when at gate"

/-- `update_aircraft_from_user_input` on one pending command: on a parse
error the fleet is left untouched (the message goes to the global error
cell, which is rendering state); on acceptance the movement engine is
re-run for the accepted clone alone and the result merged back by id. -/
def update_aircraft_from_user_input (airport : Airport) (user_input : List String) :
    Option Airport :=
  match parse_user_input user_input airport.planes airport.runways airport.weather with
  | .error _ => some airport
  | .ok plane =>
      match update_aircraft_position airport.map airport.gates [plane] with
      | none => none
      | some (ps, gates') =>
          let updated := ps.headD plane
          some { airport with
                   gates := gates',
                   planes := airport.planes.map
                     (fun q => if q.id == updated.id then updated else q) }

/-! ## Concrete fixtures used by witnesses and counterexamples -/

/-- Runway 1, east side. -/
def rw1 : Runway := ⟨1, .East⟩

/-- A one-runway registry, keyed the way `Runway::new` keys it. -/
def runways1 : List (String × Runway) := [("1", rw1)]

/-- A plane currently in the air. -/
def planeAA : Plane := ⟨1, "AA117", .InAir, (2, 0), rw1, false⟩

/-- A plane holding short. -/
def planeHS : Plane := ⟨2, "BA250", .HoldShort, (3, 3), rw1, false⟩

/-- A plane taxiing onto runway 1. -/
def planeTor : Plane := ⟨3, "UA900", .TaxiOntoRunway 1, (3, 3), rw1, false⟩

/-- A plane parked at gate 5, turnaround finished. -/
def planeAG : Plane := ⟨4, "EK500", .AtGate ("5", .Standby), (1, 1), rw1, false⟩

/-- A plane parked at gate 5, turnaround still running. -/
def planeAGBusy : Plane := ⟨5, "AF111", .AtGate ("5", .Refuel), (1, 1), rw1, false⟩

/-- A plane taxiing to gate 5. -/
def planeT2G : Plane := ⟨6, "LH320", .TaxiToGate "5", (1, 1), rw1, false⟩

/-- A plane taxiing to gate 7 (while standing on gate 5's cell). -/
def planeT2G7 : Plane := ⟨7, "QF808", .TaxiToGate "7", (1, 1), rw1, false⟩

/-- A plane starting its turnaround at gate 1. -/
def planeGate : Plane := ⟨8, "AI101", .AtGate ("1", .ShutdownProcedure), (4, 4), rw1, false⟩

/-- Four-plane fleet with two colliding pairs: (a, b) at (5, 5) and
(c, d) at (7, 7). -/
def planeC3a : Plane := ⟨1, "AA111", .HoldPosition, (5, 5), rw1, false⟩

def planeC3b : Plane := ⟨2, "DL222", .HoldPosition, (5, 5), rw1, false⟩

def planeC3c : Plane := ⟨3, "UA333", .HoldPosition, (7, 7), rw1, false⟩

def planeC3d : Plane := ⟨4, "BA444", .HoldPosition, (7, 7), rw1, false⟩

def fleetC3 : List Plane := [planeC3a, planeC3b, planeC3c, planeC3d]

/-- 3×3 grid with `Gate("5")` in the centre, `Empty` elsewhere. -/
def mapGate3 : Map :=
  ⟨3, 3, ⟨2, 20⟩,
   [[.Empty, .Empty, .Empty],
    [.Empty, .Gate "5", .Empty],
    [.Empty, .Empty, .Empty]]⟩

/-- Gate registry holding gate 5 (unoccupied). -/
def gates5 : List (String × Gate) := [("5", ⟨"5", (1, 1), false⟩)]

/-- Gate registry holding gates 5 and 7 (unoccupied). -/
def gates57 : List (String × Gate) :=
  [("5", ⟨"5", (1, 1), false⟩), ("7", ⟨"7", (0, 0), false⟩)]

/-- An empty grid (the `AtGate` rule never reads the grid). -/
def mapEmpty : Map := ⟨0, 0, ⟨2, 20⟩, []⟩

/-- A grid with two `Runway` cells that carry the same name `1`. -/
def dupRunwayMap : Map := ⟨1, 2, ⟨2, 20⟩, [[.Runway (1, .East), .Runway (1, .East)]]⟩

/-- A grid with two `Gate("5")` cells. -/
def dupGateMap : Map := ⟨1, 2, ⟨2, 20⟩, [[.Gate "5", .Gate "5"]]⟩

/-- Airport fixture for the command-rejection claims. -/
def airportC1 : Airport := ⟨runways1, gates5, mapGate3, ⟨.Clear⟩, [planeAA]⟩

/-! ## Helper lemmas -/

/-- Association-list lookup over an append tries the left list first. -/
theorem lookup_append {α β : Type} [BEq α] (k : α) (l₁ l₂ : List (α × β)) :
    List.lookup k (l₁ ++ l₂) = (List.lookup k l₁).elim (List.lookup k l₂) some := by
  induction l₁ with
  | nil => simp [List.lookup]
  | cons kv rest ih =>
      obtain ⟨a, b⟩ := kv
      by_cases hk : (k == a) = true
      · simp [List.lookup, hk]
      · simp only [Bool.not_eq_true] at hk
        simp [List.lookup, hk, ih]

/-- Lookup succeeds exactly on the stored keys. -/
theorem lookup_isSome_iff {α β : Type} [BEq α] [LawfulBEq α] (k : α)
    (l : List (α × β)) :
    (List.lookup k l).isSome = true ↔ k ∈ l.map Prod.fst := by
  induction l with
  | nil => simp [List.lookup]
  | cons kv rest ih =>
      obtain ⟨a, b⟩ := kv
      by_cases hk : k = a
      · simp [List.lookup, hk]
      · have hk' : (k == a) = false := by simpa using hk
        simp [List.lookup, hk', ih, hk]

/-- `setOccupied` updates exactly the looked-up record. -/
theorem lookup_setOccupied (gates : List (String × Gate)) (g : String) :
    List.lookup g (setOccupied gates g) =
      (List.lookup g gates).map (fun gt => { gt with is_occupied := true }) := by
  induction gates with
  | nil => rfl
  | cons kv rest ih =>
      obtain ⟨k, v⟩ := kv
      by_cases hk : k = g
      · subst hk
        have h1 : setOccupied ((k, v) :: rest) k =
            (k, { v with is_occupied := true }) :: setOccupied rest k := by
          simp [setOccupied]
        rw [h1]
        simp [List.lookup]
      · have hk2 : (g == k) = false := by simpa using (Ne.symm hk)
        have h1 : setOccupied ((k, v) :: rest) g = (k, v) :: setOccupied rest g := by
          simp [setOccupied, hk]
        rw [h1]
        simp only [List.lookup, hk2]
        exact ih

/-- The collision condition is symmetric. -/
theorem collideb_symm (p q : Plane) : collideb p q = collideb q p := by
  rw [Bool.eq_iff_iff]
  simp only [collideb, Bool.and_eq_true, beq_iff_eq, bne_iff_ne, ne_eq]
  constructor
  · rintro ⟨⟨⟨h1, h2⟩, h3⟩, h4⟩
    exact ⟨⟨⟨h1.symm, fun hh => h2 hh.symm⟩, h4⟩, h3⟩
  · rintro ⟨⟨⟨h1, h2⟩, h3⟩, h4⟩
    exact ⟨⟨⟨h1.symm, fun hh => h2 hh.symm⟩, h4⟩, h3⟩

/-- The accumulator-overwriting outer loop computes the right-biased
`last_hit`. -/
theorem crashed_scan_eq (l : List Plane) :
    ∀ acc, crashed_scan l acc = (last_hit l).elim acc some := by
  induction l with
  | nil => intro acc; rfl
  | cons p rest ih =>
      intro acc
      simp only [crashed_scan, last_hit, ih]
      cases hrest : last_hit rest with
      | some pr => cases hscan : inner_scan p rest <;> rfl
      | none => cases hscan : inner_scan p rest <;> rfl

/-- `crashed_planes` is the hit of the latest outer plane that has one. -/
theorem crashed_planes_eq_last_hit (l : List Plane) :
    crashed_planes l = last_hit l := by
  rw [crashed_planes, crashed_scan_eq]
  cases last_hit l <;> rfl

/-- The scan misses exactly when no (ordered) pair of the fleet
collides. -/
theorem last_hit_eq_none_iff (l : List Plane) :
    last_hit l = none ↔ l.Pairwise (fun a b => collideb a b = false) := by
  induction l with
  | nil => simp [last_hit]
  | cons p rest ih =>
      simp only [last_hit, List.pairwise_cons]
      cases hrest : last_hit rest with
      | some pr =>
          simp only [ih.symm, hrest]
          simp
      | none =>
          have hpair := ih.mp hrest
          cases hscan : inner_scan p rest with
          | some q =>
              simp only [Option.map_some]
              constructor
              · intro h; cases h
              · rintro ⟨hall, -⟩
                have := List.find?_some hscan
                have hq := List.mem_of_find?_eq_some hscan
                rw [hall q hq] at this
                cases this
          | none =>
              simp only [Option.map_none]
              have hall : ∀ q ∈ rest, collideb p q = false := by
                intro q hq
                have := List.find?_eq_none.mp hscan q hq
                simpa using this
              constructor
              · intro _; exact ⟨hall, hpair⟩
              · intro _; rfl

/-- Any pair the scan returns satisfies the collision condition. -/
theorem last_hit_collides (l : List Plane) :
    ∀ p q, last_hit l = some (p, q) → collideb p q = true := by
  induction l with
  | nil => intro p q h; cases h
  | cons a rest ih =>
      intro p q h
      simp only [last_hit] at h
      cases hrest : last_hit rest with
      | some pr =>
          rw [hrest] at h
          cases h
          exact ih p q hrest
      | none =>
          rw [hrest] at h
          cases hscan : inner_scan a rest with
          | none => rw [hscan] at h; cases h
          | some q' =>
              rw [hscan] at h
              have h' : (a, q') = (p, q) := by simpa using h
              have ha : a = p := congrArg Prod.fst h'
              have hq : q' = q := congrArg Prod.snd h'
              subst ha
              subst hq
              exact List.find?_some hscan

/-- A transition outside the allow-list is rejected with the
state-specific message, for every weather condition. -/
theorem allow_false_check (cur req : Action) (w : Weather)
    (h : allow_list cur req = false) :
    check_transition cur req w = some (reject_msg cur req) := by
  rcases cur with _ | _ | _ | _ | k | _ | g | _ | ⟨g, sub⟩ <;>
    rcases req with _ | _ | _ | _ | k2 | _ | g2 | _ | ⟨g2, sub2⟩ <;>
    simp_all [allow_list, check_transition, reject_msg]

/-- Resolution of a well-formed `t <name> <runway>` command. -/
theorem resolve_command_t (planes : List Plane) (runways : List (String × Runway))
    (name dest : String) (p : Plane) (rw : Runway)
    (hfind : planes.find? (fun q => to_lowercase q.name == to_lowercase name) = some p)
    (hrw : List.lookup dest runways = some rw) :
    resolve_command ["t", name, dest] planes runways =
      .ok ({ p with runway := rw }, .Takeoff) := by
  simp [resolve_command, hfind, hrw, valid_commands, keyword_action]

/-- Resolution of a well-formed `p <name>` command. -/
theorem resolve_command_p (planes : List Plane) (runways : List (String × Runway))
    (name : String) (p : Plane)
    (hfind : planes.find? (fun q => to_lowercase q.name == to_lowercase name) = some p) :
    resolve_command ["p", name] planes runways = .ok (p, .Pushback) := by
  simp [resolve_command, hfind, valid_commands, keyword_action]

/-- A successful `runwayFold` keeps its key set duplicate-free. -/
theorem runwayFold_nodup (cells : List (Nat × Direction)) :
    ∀ acc : List (String × Runway), (acc.map Prod.fst).Nodup →
      ((runwayFold cells acc).map Prod.fst).Nodup := by
  induction cells with
  | nil => intro acc h; exact h
  | cons nd rest ih =>
      intro acc h
      obtain ⟨name, side⟩ := nd
      by_cases hl : (List.lookup (toString name) acc).isSome = true
      · simpa [runwayFold, hl] using ih acc h
      · have hnm : toString name ∉ acc.map Prod.fst := by
          intro hmem
          exact hl ((lookup_isSome_iff _ _).mpr hmem)
        have hacc : ((acc ++ [(toString name, (⟨name, side⟩ : Runway))]).map Prod.fst).Nodup := by
          simp only [List.map_append, List.map_cons, List.map_nil]
          simp [List.nodup_append, h, hnm]
        simp only [Bool.not_eq_true] at hl
        simpa [runwayFold, hl] using ih _ hacc

/-- `runwayFold` never drops a key that is already present. -/
theorem runwayFold_lookup_mono (cells : List (Nat × Direction)) :
    ∀ (acc : List (String × Runway)) (k : String),
      (List.lookup k acc).isSome = true →
      (List.lookup k (runwayFold cells acc)).isSome = true := by
  induction cells with
  | nil => intro acc k h; exact h
  | cons nd rest ih =>
      intro acc k h
      obtain ⟨name, side⟩ := nd
      by_cases hl : (List.lookup (toString name) acc).isSome = true
      · simpa [runwayFold, hl] using ih acc k h
      · simp only [Bool.not_eq_true] at hl
        have h' : (List.lookup k (acc ++ [(toString name, (⟨name, side⟩ : Runway))])).isSome = true := by
          rw [lookup_append]
          cases hk : List.lookup k acc with
          | some v => simp
          | none => rw [hk] at h; cases h
        simpa [runwayFold, hl] using ih _ k h'

/-- Every runway cell scanned ends up with a record under its key. -/
theorem runwayFold_covers (cells : List (Nat × Direction)) :
    ∀ (acc : List (String × Runway)) (name : Nat) (side : Direction),
      (name, side) ∈ cells →
      (List.lookup (toString name) (runwayFold cells acc)).isSome = true := by
  induction cells with
  | nil => intro acc name side h; cases h
  | cons nd rest ih =>
      intro acc name side h
      obtain ⟨n, d⟩ := nd
      rcases List.mem_cons.mp h with heq | hmem
      · obtain ⟨h1, h2⟩ : name = n ∧ side = d := by
          constructor
          · exact congrArg Prod.fst heq
          · exact congrArg Prod.snd heq
        subst h1; subst h2
        by_cases hl : (List.lookup (toString name) acc).isSome = true
        · simpa [runwayFold, hl] using runwayFold_lookup_mono rest acc _ hl
        · have hlnone : List.lookup (toString name) acc = none := by
            cases hv : List.lookup (toString name) acc with
            | none => rfl
            | some v => rw [hv] at hl; simp at hl
          simp only [Bool.not_eq_true] at hl
          have h' : (List.lookup (toString name)
              (acc ++ [(toString name, (⟨name, side⟩ : Runway))])).isSome = true := by
            rw [lookup_append, hlnone]
            simp [List.lookup]
          simpa [runwayFold, hl] using runwayFold_lookup_mono rest _ _ h'
      · by_cases hl : (List.lookup (toString n) acc).isSome = true
        · simpa [runwayFold, hl] using ih acc name side hmem
        · simp only [Bool.not_eq_true] at hl
          simpa [runwayFold, hl] using ih _ name side hmem

/-- A successful `gateFold` has pairwise-distinct incoming keys, none of
which was present in the accumulator. -/
theorem gateFold_ok_nodup (cells : List (String × Nat × Nat)) :
    ∀ (acc : List (String × Gate)) (gs : List (String × Gate)),
      gateFold cells acc = .ok gs →
      (cells.map Prod.fst).Nodup ∧
        ∀ k ∈ cells.map Prod.fst, List.lookup k acc = none := by
  induction cells with
  | nil => intro acc gs _; exact ⟨List.nodup_nil, by intro k hk; cases hk⟩
  | cons cell rest ih =>
      intro acc gs h
      obtain ⟨number, pos⟩ := cell
      by_cases hl : (List.lookup number acc).isSome = true
      · rw [gateFold, if_pos hl] at h
        cases h
      · have hlnone : List.lookup number acc = none := by
          cases hv : List.lookup number acc with
          | none => rfl
          | some v => rw [hv] at hl; simp at hl
        rw [gateFold, if_neg hl] at h
        obtain ⟨hnodup, hnone⟩ := ih _ gs h
        have hnotin : number ∉ rest.map Prod.fst := by
          intro hmem
          have := hnone number hmem
          rw [lookup_append, hlnone] at this
          simp [List.lookup] at this
        refine ⟨List.Nodup.cons hnotin hnodup, ?_⟩
        intro k hk
        rcases List.mem_cons.mp hk with heq | hmem
        · subst heq; exact hlnone
        · have := hnone k hmem
          rw [lookup_append] at this
          cases hv : List.lookup k acc with
          | none => rfl
          | some v => rw [hv] at this; simp [Option.elim] at this

/-- The `AtGate` rule advances the sub-state by exactly one turnaround
step and changes nothing else; iterated over `n` ticks it applies
`next_atgate` `n` times. -/
theorem run_ticks_atgate (m : Map) (gates : List (String × Gate)) :
    ∀ (n : Nat) (q : Plane) (g : String) (s : AtGateAction),
      q.current_action = .AtGate (g, s) → q.out_of_map = false →
      run_ticks m n gates q =
        some ({ q with current_action := .AtGate (g, next_atgate^[n] s) }, gates) := by
  intro n
  induction n with
  | zero =>
      intro q g s hq hout
      simp only [run_ticks, Function.iterate_zero_apply]
      rw [← hq]
  | succ n ih =>
      intro q g s hq hout
      have hstep : tick_plane m gates q =
          some ({ q with current_action := .AtGate (g, next_atgate s) }, gates) := by
        simp [tick_plane, hout, update_one_aircraft, hq]
      have ihq := ih { q with current_action := .AtGate (g, next_atgate s) } g
        (next_atgate s) rfl hout
      rw [run_ticks, hstep]
      dsimp only
      rw [ihq]
      simp [Function.iterate_succ_apply]

/-- C1: for every fleet, runway registry and weather, a command whose
resolved transition request is outside the allow-list (e.g. `hp AA117`
while AA117 is `InAir`) is rejected by `parse_user_input` with the
state-specific error message, and the fleet — in particular that
aircraft's action, position, runway and exited flag — is left
unchanged by `update_aircraft_from_user_input`. -/
theorem c1_illegal_transition_rejected (a : Airport) (command : List String)
    (p : Plane) (req : Action)
    (hres : resolve_command command a.planes a.runways = .ok (p, req))
    (hnot : allow_list p.current_action req = false) :
    parse_user_input command a.planes a.runways a.weather =
      .error (reject_msg p.current_action req) ∧
    update_aircraft_from_user_input a command = some a := by
  have hchk := allow_false_check p.current_action req a.weather hnot
  have hparse : parse_user_input command a.planes a.runways a.weather =
      .error (reject_msg p.current_action req) := by
    simp only [parse_user_input]
    rw [hres]
    dsimp only
    rw [hchk]
  refine ⟨hparse, ?_⟩
  simp only [update_aircraft_from_user_input]
  rw [hparse]

/-- C1 witness: `hp AA117` while AA117 is `InAir` is rejected with the
in-the-air message and leaves the airport untouched. -/
theorem c1_witness :
    resolve_command ["hp", "AA117"] airportC1.planes airportC1.runways =
      .ok (planeAA, .HoldPosition) ∧
    allow_list planeAA.current_action .HoldPosition = false ∧
    parse_user_input ["hp", "AA117"] airportC1.planes airportC1.runways airportC1.weather =
      .error "Not a valid action when plane is in the air" ∧
    update_aircraft_from_user_input airportC1 ["hp", "AA117"] = some airportC1 := by
  have h := c1_illegal_transition_rejected airportC1 ["hp", "AA117"] planeAA .HoldPosition
    (by decide) (by decide)
  exact ⟨by decide, by decide, h.1, h.2⟩

/-- C2: under `InclementWeather` a Takeoff command from `HoldShort` or
`TaxiOntoRunway` and a Pushback command from `AtGate`/`Standby` are
rejected with the weather-specific messages; the same commands succeed
under `Clear` and `Rain`, Pushback additionally requiring the `Standby`
sub-state. -/
theorem c2_weather_gate (planes : List Plane) (runways : List (String × Runway))
    (name dest g : String) (p : Plane) (rw : Runway) (k : Nat) (sub : AtGateAction)
    (hfind : planes.find? (fun q => to_lowercase q.name == to_lowercase name) = some p)
    (hrw : List.lookup dest runways = some rw) :
    ((p.current_action = .HoldShort ∨ p.current_action = .TaxiOntoRunway k) →
      parse_user_input ["t", name, dest] planes runways ⟨.InclementWeather⟩ =
        .error "Cannot takeoff during inclement weather, return back to the gate" ∧
      parse_user_input ["t", name, dest] planes runways ⟨.Clear⟩ =
        .ok { p with runway := rw, current_action := .Takeoff } ∧
      parse_user_input ["t", name, dest] planes runways ⟨.Rain⟩ =
        .ok { p with runway := rw, current_action := .Takeoff }) ∧
    (p.current_action = .AtGate (g, .Standby) →
      parse_user_input ["p", name] planes runways ⟨.InclementWeather⟩ =
        .error "Cannot pushback during inclement weather" ∧
      parse_user_input ["p", name] planes runways ⟨.Clear⟩ =
        .ok { p with current_action := .Pushback } ∧
      parse_user_input ["p", name] planes runways ⟨.Rain⟩ =
        .ok { p with current_action := .Pushback }) ∧
    (p.current_action = .AtGate (g, sub) → sub ≠ .Standby →
      ∀ w, parse_user_input ["p", name] planes runways w =
        .error "Wait for the plane to finish its turnaround process") := by
  have ht := resolve_command_t planes runways name dest p rw hfind hrw
  have hpb := resolve_command_p planes runways name p hfind
  refine ⟨?_, ?_, ?_⟩
  · intro hcur
    refine ⟨?_, ?_, ?_⟩ <;>
      · simp only [parse_user_input]
        rw [ht]
        dsimp only
        rcases hcur with h | h <;> rw [h] <;> rfl
  · intro hcur
    refine ⟨?_, ?_, ?_⟩ <;>
      · simp only [parse_user_input]
        rw [hpb]
        dsimp only
        rw [hcur]
        rfl
  · intro hcur hsub w
    simp only [parse_user_input]
    rw [hpb]
    dsimp only
    rw [hcur]
    simp [check_transition, hsub]

/-- C2 witness: the four weather-gated outcomes at concrete fleets. -/
theorem c2_witness :
    parse_user_input ["t", "BA250", "1"] [planeHS] runways1 ⟨.InclementWeather⟩ =
      .error "Cannot takeoff during inclement weather, return back to the gate" ∧
    parse_user_input ["t", "BA250", "1"] [planeHS] runways1 ⟨.Clear⟩ =
      .ok { planeHS with runway := rw1, current_action := .Takeoff } ∧
    parse_user_input ["p", "EK500"] [planeAG] runways1 ⟨.InclementWeather⟩ =
      .error "Cannot pushback during inclement weather" ∧
    parse_user_input ["p", "EK500"] [planeAG] runways1 ⟨.Rain⟩ =
      .ok { planeAG with current_action := .Pushback } ∧
    parse_user_input ["p", "AF111"] [planeAGBusy] runways1 ⟨.Clear⟩ =
      .error "Wait for the plane to finish its turnaround process" := by
  have h1 := c2_weather_gate [planeHS] runways1 "BA250" "1" "5" planeHS rw1 0 .Standby
    (by decide) (by decide)
  have h2 := c2_weather_gate [planeAG] runways1 "EK500" "1" "5" planeAG rw1 0 .Standby
    (by decide) (by decide)
  have h3 := c2_weather_gate [planeAGBusy] runways1 "AF111" "1" "5" planeAGBusy rw1 0 .Refuel
    (by decide) (by decide)
  obtain ⟨h1a, h1b, -⟩ := h1.1 (Or.inl (by decide))
  obtain ⟨h2a, -, h2c⟩ := h2.2.1 (by decide)
  have h3a := h3.2.2 (by decide) (by decide) ⟨.Clear⟩
  exact ⟨h1a, h1b, h2a, h2c, h3a⟩

/-- C3 counterexample: in the fleet `[a, b, c, d]` with `a, b` colliding
at (5, 5) and `c, d` colliding at (7, 7), the scan returns `(c, d)` even
though `(a, b)` is the first colliding pair in list order — the Rust
`break` only leaves the inner loop, so later outer hits overwrite
earlier ones. -/
theorem c3_counterexample :
    crashed_planes fleetC3 = some (planeC3c, planeC3d) ∧
    crashed_planes fleetC3 ≠ some (planeC3a, planeC3b) ∧
    collideb planeC3a planeC3b = true := by decide

/-- C3 (amended): the collision scan returns the hit of the *latest*
outer plane (its partner the earliest later colliding one); any returned
pair has equal positions, distinct ids and both planes non-exited; the
scan misses exactly when no pair of the fleet collides, so whether a
collision is detected is independent of list order; and when a pair is
detected the crash counter is incremented by exactly one that tick. -/
theorem c3_collision_scan :
    (∀ fleet, crashed_planes fleet = last_hit fleet) ∧
    (∀ fleet p q, crashed_planes fleet = some (p, q) → collideb p q = true) ∧
    (∀ fleet, crashed_planes fleet = none ↔
       fleet.Pairwise (fun a b => collideb a b = false)) ∧
    (∀ fleet fleet', fleet.Perm fleet' →
       ((crashed_planes fleet).isSome ↔ (crashed_planes fleet').isSome)) ∧
    (∀ fleet score, (crashed_planes fleet).isSome = true →
       (detect_and_handle_collisions fleet score).crash = score.crash + 1) ∧
    (∀ fleet score, crashed_planes fleet = none →
       detect_and_handle_collisions fleet score = score) := by
  have hnone : ∀ fleet : List Plane, crashed_planes fleet = none ↔
      fleet.Pairwise (fun a b => collideb a b = false) := by
    intro fleet
    rw [crashed_planes_eq_last_hit]
    exact last_hit_eq_none_iff fleet
  have hsymm : Symmetric (fun a b : Plane => collideb a b = false) := by
    intro x y hxy
    rw [collideb_symm]
    exact hxy
  refine ⟨crashed_planes_eq_last_hit, ?_, hnone, ?_, ?_, ?_⟩
  · intro fleet p q h
    rw [crashed_planes_eq_last_hit] at h
    exact last_hit_collides fleet p q h
  · intro fleet fleet' hperm
    have hiff : crashed_planes fleet = none ↔ crashed_planes fleet' = none := by
      rw [hnone fleet, hnone fleet']
      exact hperm.pairwise_iff (fun {x y} h => hsymm h)
    cases hc : crashed_planes fleet <;> cases hc' : crashed_planes fleet' <;>
      simp_all
  · intro fleet score h
    rw [detect_and_handle_collisions]
    cases hc : crashed_planes fleet with
    | none => rw [hc] at h; cases h
    | some pr => rfl
  · intro fleet score h
    rw [detect_and_handle_collisions, h]

/-- C3 witness: with the two-pair fleet the crash counter goes up by
exactly one. -/
theorem c3_witness :
    (detect_and_handle_collisions fleetC3 ⟨0, 0⟩).crash = (0 : Nat) + 1 := by
  exact c3_collision_scan.2.2.2.2.1 fleetC3 ⟨0, 0⟩ (by decide)

/-- C4: an aircraft at `AtGate(g, ShutdownProcedure)` receiving no
commands advances its sub-state by exactly one step of the fixed
16-step turnaround sequence per movement tick (position, runway, id and
exited flag unchanged), reaches `AtGate(g, Standby)` after exactly 15
ticks, and remains at `Standby` on every subsequent tick. -/
theorem c4_turnaround (m : Map) (gates : List (String × Gate)) (p : Plane)
    (g : String)
    (hact : p.current_action = .AtGate (g, .ShutdownProcedure))
    (hmap : p.out_of_map = false) :
    (∀ n, run_ticks m n gates p =
       some ({ p with
                 current_action := .AtGate (g, next_atgate^[n] .ShutdownProcedure) },
             gates)) ∧
    next_atgate^[15] AtGateAction.ShutdownProcedure = .Standby ∧
    (∀ j, j < 15 → next_atgate^[j] AtGateAction.ShutdownProcedure ≠ .Standby) ∧
    (∀ j, next_atgate^[j + 15] AtGateAction.ShutdownProcedure = .Standby) ∧
    (∀ i, i < 15 →
       next_atgate (at_gate_sequence.getD i .Standby) =
         at_gate_sequence.getD (i + 1) .Standby) := by
  refine ⟨?_, by decide, by decide, ?_, by decide⟩
  · intro n
    exact run_ticks_atgate m gates n p g .ShutdownProcedure hact hmap
  · intro j
    rw [Function.iterate_add_apply]
    rw [(by decide : next_atgate^[15] AtGateAction.ShutdownProcedure = .Standby)]
    exact Function.iterate_fixed (by decide) j

/-- C4 witness: the concrete plane parked at gate 1 reaches `Standby`
after 15 ticks and is still at `Standby` after 16. -/
theorem c4_witness :
    run_ticks mapEmpty 15 [] planeGate =
      some ({ planeGate with current_action := .AtGate ("1", .Standby) }, []) ∧
    run_ticks mapEmpty 16 [] planeGate =
      some ({ planeGate with current_action := .AtGate ("1", .Standby) }, []) := by
  have h := c4_turnaround mapEmpty [] planeGate "1" (by decide) (by decide)
  constructor
  · have h15 := h.1 15
    rw [h.2.1] at h15
    exact h15
  · have h16 := h.1 16
    rw [(by decide :
      next_atgate^[16] AtGateAction.ShutdownProcedure = .Standby)] at h16
    exact h16

/-- C5: a `TaxiToGate(g)` aircraft standing directly on the `Gate(g)`
cell — with the runway-exit phase not applying (it is not on a runway)
and the gate-taxi-line search coming up empty — transitions in one
movement tick to `AtGate(g, ShutdownProcedure)`, marks gate `g`'s
registry record occupied, and does not change position. -/
theorem c5_gate_arrival (m : Map) (gates : List (String × Gate)) (p : Plane)
    (g : String) (gt : Gate)
    (hact : p.current_action = .TaxiToGate g)
    (hcell : m.cellAt p.position = .Gate g)
    (hscan : (check_for_gate_taxi_line_all_directions m m.cellCount
        p.position g false).1 = false)
    (hlook : List.lookup g gates = some gt) :
    update_one_aircraft m gates p =
      some ({ p with current_action := .AtGate (g, .ShutdownProcedure) },
            setOccupied gates g) ∧
    List.lookup g (setOccupied gates g) = some { gt with is_occupied := true } := by
  constructor
  · simp [update_one_aircraft, hact, hcell, hscan, hlook,
      MapPoint.check_if_runway, Direction.go]
  · rw [lookup_setOccupied, hlook]
    rfl

/-- C5 witness: on the 3×3 map the plane taxiing to gate 5 parks there
in one tick and the registry marks gate 5 occupied. -/
theorem c5_witness :
    update_one_aircraft mapGate3 gates5 planeT2G =
      some ({ planeT2G with current_action := .AtGate ("5", .ShutdownProcedure) },
            setOccupied gates5 "5") ∧
    List.lookup "5" (setOccupied gates5 "5") =
      some ⟨"5", (1, 1), true⟩ := by
  exact c5_gate_arrival mapGate3 gates5 planeT2G "5" ⟨"5", (1, 1), false⟩
    (by decide) (by decide) (by decide) (by decide)

/-- C9 (implicit): the gate-arrival branch of the `TaxiToGate(g)` rule
matches *any* `Gate` cell without comparing its label to `g`: standing
on `Gate(h)` with `h ≠ g` (runway-exit phase and gate-taxi-line search
not applying) still yields `AtGate(g, ShutdownProcedure)` and marks the
*commanded* gate `g` — not the gate stood upon — occupied. -/
theorem c9_gate_label_ignored (m : Map) (gates : List (String × Gate)) (p : Plane)
    (g h : String) (gt : Gate)
    (hact : p.current_action = .TaxiToGate g)
    (hcell : m.cellAt p.position = .Gate h)
    (_hne : h ≠ g)
    (hscan : (check_for_gate_taxi_line_all_directions m m.cellCount
        p.position g false).1 = false)
    (hlook : List.lookup g gates = some gt) :
    update_one_aircraft m gates p =
      some ({ p with current_action := .AtGate (g, .ShutdownProcedure) },
            setOccupied gates g) ∧
    List.lookup g (setOccupied gates g) = some { gt with is_occupied := true } := by
  constructor
  · simp [update_one_aircraft, hact, hcell, hscan, hlook,
      MapPoint.check_if_runway, Direction.go]
  · rw [lookup_setOccupied, hlook]
    rfl

/-- C9 witness: commanded to gate 7 while standing on gate 5's cell, the
plane parks as `AtGate("7", …)` and gate 7's record is marked occupied
(gate 5's record is untouched). -/
theorem c9_witness :
    update_one_aircraft mapGate3 gates57 planeT2G7 =
      some ({ planeT2G7 with current_action := .AtGate ("7", .ShutdownProcedure) },
            setOccupied gates57 "7") ∧
    List.lookup "7" (setOccupied gates57 "7") =
      some ⟨"7", (0, 0), true⟩ := by
  exact c9_gate_label_ignored mapGate3 gates57 planeT2G7 "7" "5" ⟨"7", (0, 0), false⟩
    (by decide) (by decide) (by decide) (by decide) (by decide)

/-- C6 counterexample: `Runway::new` on a grid with two `Runway` cells
both named `1` does not abort — it has no failure path at all (unlike
`Gate::new`'s duplicate panic) and silently returns a one-record
registry keeping the first occurrence. -/
theorem c6_counterexample :
    Runway.new dupRunwayMap = [("1", ⟨1, .East⟩)] := by decide

/-- C6 (amended): duplicate runway names are not a load-time error:
`Runway::new` keeps the first record per distinct runway name, so its
registry always has duplicate-free keys and a record under the key of
every runway cell scanned. -/
theorem c6_runway_duplicates_not_fatal (m : Map) :
    ((Runway.new m).map Prod.fst).Nodup ∧
    (∀ name side, (name, side) ∈ runwayCells m →
      (List.lookup (toString name) (Runway.new m)).isSome = true) := by
  constructor
  · exact runwayFold_nodup (runwayCells m) [] (by simp)
  · intro name side h
    exact runwayFold_covers (runwayCells m) [] name side h

/-- C6 witness: on the duplicate-runway grid the registry is built
(duplicate-free keys, runway 1 present) instead of failing. -/
theorem c6_witness :
    ((Runway.new dupRunwayMap).map Prod.fst).Nodup ∧
    (List.lookup (toString (1 : Nat)) (Runway.new dupRunwayMap)).isSome = true := by
  exact ⟨(c6_runway_duplicates_not_fatal dupRunwayMap).1,
         (c6_runway_duplicates_not_fatal dupRunwayMap).2 1 .East (by decide)⟩

/-- C7 counterexample: the keyword `t2r` is not among the seven grammar
keywords, yet `parse_user_input` accepts it — `valid_commands` has
eight entries, and `t2r` falls through the action match to
`HoldPosition`, which is granted from `TaxiOntoRunway`. -/
theorem c7_counterexample :
    parse_user_input ["t2r", "UA900", "1"] [planeTor] runways1 ⟨.Clear⟩ =
      .ok { planeTor with current_action := .HoldPosition } ∧
    valid_commands.contains "t2r" = true := by decide

/-- C7 (amended): the accepted keyword set is the *eight* keywords
`hp, p, l, t, tor, hs, t2r, t2g` (`t2r` resolving to a `HoldPosition`
request); every 2- or 3-token command whose first token is outside this
set and whose aircraft name matches some plane is rejected with the
invalid-command error naming the keyword. -/
theorem c7_invalid_keyword (command : List String) (planes : List Plane)
    (runways : List (String × Runway)) (w : Weather) (p : Plane)
    (hlen : command.length = 2 ∨ command.length = 3)
    (hfind : planes.find?
      (fun q => to_lowercase q.name == to_lowercase (command.getD 1 "")) = some p)
    (hkw : valid_commands.contains (command.getD 0 "") = false) :
    parse_user_input command planes runways w =
      .error ("Invalid command: " ++ command.getD 0 "") := by
  rcases hlen with h2 | h3
  · obtain ⟨c0, c1, rfl⟩ := List.length_eq_two.mp h2
    simp at hfind hkw
    simp [parse_user_input, resolve_command, hfind, hkw]
  · obtain ⟨c0, c1, c2, rfl⟩ := List.length_eq_three.mp h3
    simp at hfind hkw
    simp [parse_user_input, resolve_command, hfind, hkw]

/-- C7 witness: the unknown keyword `xyz` with a known aircraft is
rejected with the invalid-command error. -/
theorem c7_witness :
    parse_user_input ["xyz", "AA117"] [planeAA] runways1 ⟨.Clear⟩ =
      .error "Invalid command: xyz" := by
  exact c7_invalid_keyword ["xyz", "AA117"] [planeAA] runways1 ⟨.Clear⟩ planeAA
    (Or.inl (by decide)) (by decide) (by decide)

/-- C8: constructing the gate registry from a grid containing two `Gate`
cells with the same number fails with the fatal duplicate-gate error
rather than producing a registry. -/
theorem c8_duplicate_gate_fatal (m : Map) (n : String)
    (hdup : 2 ≤ ((gateCells m).map Prod.fst).count n) :
    ∃ e, Gate.new m = .error e := by
  cases h : Gate.new m with
  | error e => exact ⟨e, rfl⟩
  | ok gs =>
      exfalso
      have h' : gateFold (gateCells m) [] = .ok gs := h
      have hnodup := (gateFold_ok_nodup (gateCells m) [] gs h').1
      have hcount := List.nodup_iff_count_le_one.mp hnodup n
      omega

/-- C8 witness: the grid with two `Gate("5")` cells makes `Gate::new`
fail. -/
theorem c8_witness :
    2 ≤ ((gateCells dupGateMap).map Prod.fst).count "5" ∧
    ∃ e, Gate.new dupGateMap = .error e := by
  exact ⟨by decide, c8_duplicate_gate_fatal dupGateMap "5" (by decide)⟩

/-- C10: for every `Direction` d, applying the opposite-direction mapping
twice returns d: `d.get_opposite_dir().get_opposite_dir() == d`. -/
theorem c10_opposite_involutive (d : Direction) :
    d.get_opposite_dir.get_opposite_dir = d := by
  cases d <;> rfl

end Roger
